import Mathlib

/-!
Verification development for the AI Trip Planner multi-provider orchestration
layer (ai-trip-planner/app, TypeScript).  The client component's validator,
the three provider adapters (Anthropic / OpenAI / Gemini), and the submit
orchestrator are embedded shallowly: network round-trips are modelled as
oracle fields of an environment record, JavaScript runtime behaviour
(truthiness of `x || fb`, `JSON.parse`, member access throwing on `null`,
template-literal stringification, `encodeURIComponent`) is modelled by
executable Lean functions, and thrown exceptions are modelled with `Except`.

Modelling notes for JavaScript built-ins (not repository code):
* `JSON.parse` is modelled by a fuel-based structural recursive-descent
  parser over the JSON grammar restricted to integer numerals (no fraction
  or exponent part); its `SyntaxError` message is modelled by the fixed
  string `jsonParseErrMsg`.
* All runtime `TypeError`s (member access on `null`, array operations on a
  non-array) are modelled by the fixed string `typeErrorMsg`.
* `s.length` on a JS string is UTF-16 code-unit count; here it is code-point
  count, which agrees on all inputs considered below.
* The case-insensitive regex flag is modelled by lower-casing the subject
  and using lower-case patterns (faithful for the ASCII patterns involved).
-/

set_option maxRecDepth 8000

namespace TripPlanner

/-- The left-brace character, written numerically. -/
def lbrace : Char := Char.ofNat 123

/-- The right-brace character, written numerically. -/
def rbrace : Char := Char.ofNat 125

/-- JSON values as produced by `JSON.parse`. -/
inductive Json where
  | jnull
  | jbool (b : Bool)
  | jnum (n : Int)
  | jstr (s : String)
  | jarr (elems : List Json)
  | jobj (fields : List (String × Json))

/-- Whitespace accepted between JSON tokens. -/
def jsonWs (c : Char) : Bool :=
  c = ' ' || c = '\t' || c = '\n' || c = '\r'

/-- Drop leading JSON whitespace. -/
def skipWs (cs : List Char) : List Char :=
  cs.dropWhile jsonWs

/-- Hexadecimal digit value, if any. -/
def hexVal (c : Char) : Option Nat :=
  if c.isDigit then some (c.toNat - 48)
  else if 97 ≤ c.toNat && c.toNat ≤ 102 then some (c.toNat - 87)
  else if 65 ≤ c.toNat && c.toNat ≤ 70 then some (c.toNat - 55)
  else none

/-- Body of a JSON string literal (after the opening quote), with the
standard escape sequences.  Fuel-based so that it is structurally
recursive and kernel-reducible. -/
def parseStrBody : Nat → List Char → List Char → Option (String × List Char)
  | 0, _, _ => none
  | _ + 1, [], _ => none
  | f + 1, c :: cs, acc =>
    if c = '"' then some (String.mk acc.reverse, cs)
    else if c = '\\' then
      match cs with
      | [] => none
      | e :: cs2 =>
        if e = '"' then parseStrBody f cs2 ('"' :: acc)
        else if e = '\\' then parseStrBody f cs2 ('\\' :: acc)
        else if e = '/' then parseStrBody f cs2 ('/' :: acc)
        else if e = 'n' then parseStrBody f cs2 ('\n' :: acc)
        else if e = 't' then parseStrBody f cs2 ('\t' :: acc)
        else if e = 'r' then parseStrBody f cs2 ('\r' :: acc)
        else if e = 'b' then parseStrBody f cs2 (Char.ofNat 8 :: acc)
        else if e = 'f' then parseStrBody f cs2 (Char.ofNat 12 :: acc)
        else if e = 'u' then
          match cs2 with
          | h1 :: h2 :: h3 :: h4 :: cs3 =>
            match hexVal h1, hexVal h2, hexVal h3, hexVal h4 with
            | some a, some b, some c3, some d =>
              parseStrBody f cs3 (Char.ofNat (a * 4096 + b * 256 + c3 * 16 + d) :: acc)
            | _, _, _, _ => none
          | _ => none
        else none
    else parseStrBody f cs (c :: acc)

/-- Integer numeral: optional minus then a nonempty digit run. -/
def parseNum (cs : List Char) : Option (Json × List Char) :=
  let (neg, cs1) :=
    match cs with
    | c :: rest => if c = '-' then (true, rest) else (false, cs)
    | [] => (false, cs)
  let digits := cs1.takeWhile Char.isDigit
  let rest := cs1.dropWhile Char.isDigit
  if digits.isEmpty then none
  else
    let n : Nat := digits.foldl (fun acc c => acc * 10 + (c.toNat - 48)) 0
    some (Json.jnum (if neg then -(n : Int) else (n : Int)), rest)

/-- Parsing task: a whole value, the tail of an array after `[`, or the tail
of an object after the opening brace (both with the elements read so far). -/
inductive PTask where
  | value
  | arrTail (acc : List Json)
  | objTail (acc : List (String × Json))

/-- One recursive-descent JSON parser, fuel-based (structural on the fuel)
so that closed applications reduce inside `decide` and `rfl` proofs. -/
def parseStep : Nat → PTask → List Char → Option (Json × List Char)
  | 0, _, _ => none
  | f + 1, .value, cs0 =>
    match skipWs cs0 with
    | [] => none
    | c :: rest =>
      if c = '"' then
        match parseStrBody (rest.length + 1) rest [] with
        | some (s, r) => some (Json.jstr s, r)
        | none => none
      else if c = lbrace then
        match skipWs rest with
        | [] => none
        | d :: rest2 =>
          if d = rbrace then some (Json.jobj [], rest2)
          else parseStep f (.objTail []) (d :: rest2)
      else if c = '[' then
        match skipWs rest with
        | [] => none
        | d :: rest2 =>
          if d = ']' then some (Json.jarr [], rest2)
          else parseStep f (.arrTail []) (d :: rest2)
      else if c = 't' then
        match rest with
        | 'r' :: 'u' :: 'e' :: r => some (Json.jbool true, r)
        | _ => none
      else if c = 'f' then
        match rest with
        | 'a' :: 'l' :: 's' :: 'e' :: r => some (Json.jbool false, r)
        | _ => none
      else if c = 'n' then
        match rest with
        | 'u' :: 'l' :: 'l' :: r => some (Json.jnull, r)
        | _ => none
      else if c = '-' || c.isDigit then parseNum (c :: rest)
      else none
  | f + 1, .arrTail acc, cs =>
    match parseStep f .value cs with
    | none => none
    | some (v, cs2) =>
      match skipWs cs2 with
      | [] => none
      | c :: rest =>
        if c = ',' then parseStep f (.arrTail (v :: acc)) rest
        else if c = ']' then some (Json.jarr (v :: acc).reverse, rest)
        else none
  | f + 1, .objTail acc, cs =>
    match skipWs cs with
    | [] => none
    | c :: rest =>
      if c = '"' then
        match parseStrBody (rest.length + 1) rest [] with
        | none => none
        | some (key, cs2) =>
          match skipWs cs2 with
          | ':' :: cs3 =>
            match parseStep f .value cs3 with
            | none => none
            | some (v, cs4) =>
              match skipWs cs4 with
              | [] => none
              | d :: cs5 =>
                if d = ',' then parseStep f (.objTail ((key, v) :: acc)) cs5
                else if d = rbrace then some (Json.jobj ((key, v) :: acc).reverse, cs5)
                else none
          | _ => none
      else none

/-- Modelled `SyntaxError` message of a failing `JSON.parse`. -/
def jsonParseErrMsg : String := "SyntaxError: JSON parse error"

/-- Model of `JSON.parse`: the whole input must be one JSON value,
optionally surrounded by whitespace. -/
def jsonParse (s : String) : Except String Json :=
  match parseStep (4 * s.data.length + 16) .value s.data with
  | some (j, rest) => if (skipWs rest).isEmpty then .ok j else .error jsonParseErrMsg
  | none => .error jsonParseErrMsg

/-- Longest prefix of the list that ends with a right brace (i.e. the cut at
the last right brace), if the list contains one. -/
def takeToLastR : List Char → Option (List Char)
  | [] => none
  | c :: rest =>
    match takeToLastR rest with
    | some t => some (c :: t)
    | none => if c = rbrace then some [c] else none

/-- Span matched by the regex applied to provider replies: from the first
left brace that is followed by some right brace, through the last right
brace of the input (the regex's single greedy wildcard group). -/
def extractSpanL : List Char → Option (List Char)
  | [] => none
  | c :: rest =>
    if c = lbrace then
      match takeToLastR rest with
      | some t => some (c :: t)
      | none => extractSpanL rest
    else extractSpanL rest

/-- String-level wrapper of `extractSpanL`. -/
def extractSpan (s : String) : Option String :=
  (extractSpanL s.data).map String.mk

/-- The source's `jsonMatch ? JSON.parse(jsonMatch[0]) : JSON.parse(text)`: decode the
brace span if the regex matched, otherwise the entire reply body.  The
failing branch is not retried with the other argument. -/
def tolerantDecode (s : String) : Except String Json :=
  match extractSpan s with
  | some span => jsonParse span
  | none => jsonParse s

/-- Modelled message of a runtime `TypeError` (member access on `null`,
array operation on a non-array). -/
def typeErrorMsg : String := "TypeError: cannot read properties"

/-- JS `v || fb` for an optional string-valued field: an absent field
(`undefined`) and the empty string are falsy. -/
def jsStrOr (v : Option String) (fb : String) : String :=
  match v with
  | some s => if s.isEmpty then fb else s
  | none => fb

/-- A metrics token entry: either a provider-reported number or one of the
adapters' fallback strings. -/
inductive TokVal where
  | num (n : Nat)
  | str (s : String)
deriving DecidableEq, Repr

/-- JS `count || fb` for an optional numeric usage field: an absent field and
the number `0` are both falsy, so both produce the fallback string. -/
def jsNumOr (v : Option Nat) (fb : String) : TokVal :=
  match v with
  | some n => if n = 0 then .str fb else .num n
  | none => .str fb

/-- Last-binding lookup in an object's field list (`JSON.parse` keeps the
last duplicate key). -/
def lookupLast : List (String × Json) → String → Option Json
  | [], _ => none
  | (k, v) :: rest, key =>
    match lookupLast rest key with
    | some r => some r
    | none => if k = key then some v else none

/-- Field of a JSON value: `undefined` (`none`) on primitives and arrays. -/
def fieldOf : Json → String → Option Json
  | .jobj fields, k => lookupLast fields k
  | _, _ => none

/-- Null test, avoiding decidable equality on `Json`. -/
def Json.isNull : Json → Bool
  | .jnull => true
  | _ => false

/-- JS member access `o.k`: throws a `TypeError` on `null`, otherwise yields
the field (`none` models `undefined`). -/
def jsGet (j : Json) (k : String) : Except String (Option Json) :=
  if j.isNull then .error typeErrorMsg else .ok (fieldOf j k)

/-- JS member access `o.k` followed by an array operation (`.map`, `.length`,
indexing): throws unless the field holds an array. -/
def jsGetArr (j : Json) (k : String) : Except String (List Json) :=
  match jsGet j k with
  | .error m => .error m
  | .ok (some (.jarr xs)) => .ok xs
  | .ok _ => .error typeErrorMsg

/-- Fuel-based JS template-literal stringification of a JSON value
(array elements are joined with commas, `null` elements becoming empty). -/
def jsStringF : Nat → Json → String
  | _, .jnull => "null"
  | _, .jbool b => cond b "true" "false"
  | _, .jnum n => toString n
  | _, .jstr s => s
  | 0, .jarr _ => ""
  | f + 1, .jarr xs =>
    String.intercalate ","
      (xs.map fun x =>
        match x with
        | .jnull => ""
        | y => jsStringF f y)
  | _, .jobj _ => "[object Object]"

/-- JS stringification of a JSON value (e.g. inside a template literal).
Array nesting is modelled to depth 64 so the function stays structurally
recursive (hence kernel-reducible); no value considered here comes close. -/
def Json.jsString (j : Json) : String := jsStringF 64 j

/-- JS template-literal stringification of a possibly-`undefined` value. -/
def jsTemplateStr : Option Json → String
  | none => "undefined"
  | some j => j.jsString

/-- UTF-8 bytes of a character, as plain naturals. -/
def utf8Bytes (c : Char) : List Nat :=
  let n := c.toNat
  if n < 128 then [n]
  else if n < 2048 then [192 + n / 64, 128 + n % 64]
  else if n < 65536 then [224 + n / 4096, 128 + (n / 64) % 64, 128 + n % 64]
  else [240 + n / 262144, 128 + (n / 4096) % 64, 128 + (n / 64) % 64, 128 + n % 64]

/-- Upper-case hexadecimal digit. -/
def hexDigit (n : Nat) : Char :=
  if n < 10 then Char.ofNat (48 + n) else Char.ofNat (55 + n)

/-- Characters `encodeURIComponent` leaves unescaped. -/
def uriUnreserved (c : Char) : Bool :=
  c.isAlphanum || c = '-' || c = '_' || c = '.' || c = '!' || c = '~' ||
    c = '*' || c = Char.ofNat 39 || c = '(' || c = ')'

/-- Model of the JS builtin `encodeURIComponent`. -/
def encodeURIComponent (s : String) : String :=
  s.data.foldl
    (fun acc c =>
      if uriUnreserved c then acc.push c
      else acc ++ String.mk ((utf8Bytes c).foldr
        (fun b r => '%' :: hexDigit (b / 16) :: hexDigit (b % 16) :: r) []))
    ""

/-! ### Request validator (`validateInput` in the page component) -/

/-- Whitespace class of the regex `\s` (the members relevant to ASCII text,
plus no-break space). -/
def jsWs (c : Char) : Bool :=
  c = ' ' || c = '\t' || c = '\n' || c = '\r' ||
    c = Char.ofNat 12 || c = Char.ofNat 11 || c = Char.ofNat 160

/-- Lower-cased character data of a string (the `/i` regex flag; kept at
the character-list level so it reduces inside the kernel). -/
def lowerData (s : String) : List Char :=
  s.data.map Char.toLower

/-- Does the pattern occur as a prefix of the list? -/
def wordAtFront (w : String) (cs : List Char) : Bool :=
  w.data.isPrefixOf cs

/-- Does the pattern occur anywhere in the list? -/
def containsSub (pat : List Char) : List Char → Bool
  | [] => pat.isEmpty
  | c :: rest => pat.isPrefixOf (c :: rest) || containsSub pat rest

/-- Does any of the words occur in the (already lower-cased) text? -/
def anyWord (ws : List String) (cs : List Char) : Bool :=
  ws.any fun w => containsSub w.data cs

/-- Count-pattern nouns of the regex. -/
def countWords : List String := ["people", "person", "traveler", "adult", "child"]

/-- Qualitative group words of the second traveler regex. -/
def groupWords : List String := ["solo", "alone", "myself", "family", "couple", "group"]

/-- Age-signal words of the third regex. -/
def ageWords : List String :=
  ["age", "years old", "kid", "child", "adult", "senior", "teenager", "toddler", "infant"]

/-- The regex `\d+\s*(people|person|traveler|adult|child)` on lower-cased
text: some position starts a digit run followed by optional whitespace and
one of the count nouns. -/
def countMatch : List Char → Bool
  | [] => false
  | c :: rest =>
    (c.isDigit &&
      countWords.any fun w =>
        wordAtFront w ((rest.dropWhile Char.isDigit).dropWhile jsWs)) ||
    countMatch rest

/-- First validator signal: `text.length > 10`. -/
def hasDestination (t : String) : Bool := t.length > 10

/-- Second validator signal: count pattern or qualitative group pattern,
case-insensitively. -/
def hasPeopleCount (t : String) : Bool :=
  countMatch (lowerData t) || anyWord groupWords (lowerData t)

/-- Third validator signal: any age word occurs, case-insensitively. -/
def hasAgeInfo (t : String) : Bool :=
  anyWord ageWords (lowerData t)

/-- Validation message of the first check. -/
def missingDestinationMsg : String := "Please provide more details about your destination."

/-- Validation message of the second check. -/
def missingTravelerMsg : String := "Please tell us how many people are traveling."

/-- Validation message of the third check. -/
def missingAgeMsg : String := "Please mention the age groups of travelers."

/-- The validator `validateInput`, with the reported message made explicit:
`some msg` is the `setValidationError(msg); return false` path and `none`
is the `return true` path. -/
def validateReason (t : String) : Option String :=
  if hasDestination t = false then some missingDestinationMsg
  else if hasPeopleCount t = false then some missingTravelerMsg
  else if hasAgeInfo t = false then some missingAgeMsg
  else none

/-- The boolean result of `validateInput`. -/
def validateInput (t : String) : Bool :=
  (validateReason t).isNone

/-! ### Provider adapters

Each adapter's two-step `await fetch(...)` / `await response.json()` on the
text backend is modelled by one oracle of type `Except String TextResp`:
`.error m` is a rejection thrown during the fetch or the body parse
(transport error or malformed body), `.ok data` is the settled JSON body
together with `response.ok`.  The provider-specific payload path
(`data.content[0].text`, `data.choices[0].message.content`,
`data.candidates[0].content.parts[0].text`) is modelled by the `text`
field, with `none` meaning the path is missing and access throws.  Durations
of the awaited round-trips are oracle data as well; `performance.now()`
differences are the accumulated durations. -/

/-- Settled result of the text-generation call of one adapter. -/
structure TextResp where
  /-- Field `response.ok` of the fetch. -/
  ok : Bool
  /-- Field `data.error?.message` (`none` models an absent path). -/
  errMsg : Option String
  /-- The provider-specific text payload path (`none` models a missing
  path, whose access throws a `TypeError`). -/
  text : Option String
  /-- The input-token usage field (`none` models an absent field). -/
  inTok : Option Nat
  /-- The output-token usage field (`none` models an absent field). -/
  outTok : Option Nat

/-- Oracle environment of the Anthropic adapter (text backend only). -/
structure AnthropicEnv where
  /-- Settled `fetch`+`json()` of the text call, or the thrown error. -/
  call : Except String TextResp
  /-- Wall-clock duration of the text call. -/
  callDur : Nat

/-- Oracle environment of an image-backed adapter (OpenAI or Gemini). -/
structure ImgEnv where
  /-- Is the `NEXT_PUBLIC_*_API_KEY` environment variable set? -/
  hasKey : Bool
  /-- Settled `fetch`+`json()` of the text call, or the thrown error. -/
  call : Except String TextResp
  /-- Wall-clock duration of the text call. -/
  callDur : Nat
  /-- Settled `fetch`+`json()` of the k-th image-proxy call (k = 0 is the
  destination image, k = i + 1 the i-th attraction): either the thrown
  error, or the `url` field of the parsed body (`none` = absent). -/
  img : Nat → Except String (Option String)
  /-- Wall-clock duration of the k-th image-proxy call. -/
  imgDur : Nat → Nat

/-- The mock trip brief `{} as TripBrief` of the catch branches. -/
def emptyBrief : Json := Json.jobj []

/-- Metrics attached to a pipeline outcome. -/
structure Metrics where
  latencyMs : Nat
  inputTokens : TokVal
  outputTokens : TokVal
  provider : String
  model : String

/-- The `ApiResponse` record returned by every adapter; `error = some m`
is the catch branch (a `Failure`), `error = none` a `Success`. -/
structure ApiResponse where
  tripBrief : Json
  destinationImage : String
  attractionImages : List String
  metrics : Metrics
  error : Option String

/-- Catch-branch result of the Anthropic adapter. -/
def anthropicFailure (elapsed : Nat) (msg : String) : ApiResponse :=
  { tripBrief := emptyBrief
    destinationImage := ""
    attractionImages := []
    metrics :=
      { latencyMs := elapsed
        inputTokens := .str "N/A"
        outputTokens := .str "N/A"
        provider := "Anthropic"
        model := "Claude Sonnet 4" }
    error := some msg }

/-- Catch-branch result of the OpenAI adapter. -/
def openaiFailure (elapsed : Nat) (msg : String) : ApiResponse :=
  { tripBrief := emptyBrief
    destinationImage := ""
    attractionImages := []
    metrics :=
      { latencyMs := elapsed
        inputTokens := .str "N/A"
        outputTokens := .str "N/A"
        provider := "OpenAI"
        model := "GPT-4o" }
    error := some msg }

/-- Catch-branch result of the Gemini adapter. -/
def geminiFailure (elapsed : Nat) (msg : String) : ApiResponse :=
  { tripBrief := emptyBrief
    destinationImage := ""
    attractionImages := []
    metrics :=
      { latencyMs := elapsed
        inputTokens := .str "N/A"
        outputTokens := .str "N/A"
        provider := "Google"
        model := "Gemini 2.5" }
    error := some msg }

/-- Fallback destination image of the OpenAI adapter. -/
def openaiDestFallback : String :=
  "https://via.placeholder.com/800x600?text=Image+Generation+Failed"

/-- Fallback destination image of the Gemini adapter. -/
def geminiDestFallback : String :=
  "https://via.placeholder.com/800x600?text=Image+Failed"

/-- Fallback attraction image of both image-backed adapters. -/
def attrFallback : String := "https://via.placeholder.com/600x400?text=Failed"

/-- The sequential image loop over the first `min 3 n` attractions
(`for i in 0..min(3, popularSpots.length)`), threading the elapsed time.
Each iteration reads `spot.imagePrompt` (throwing on a `null` spot), issues
the k-th image call, and pushes `imgData.url || fallback`.  A thrown error
carries the elapsed time at the throw. -/
def imgLoop (call : Nat → Except String (Option String)) (dur : Nat → Nat)
    (fb : String) :
    List Json → Nat → Nat → Except (String × Nat) (List String × Nat)
  | [], _, e => .ok ([], e)
  | spot :: rest, k, e =>
    if spot.isNull then .error (typeErrorMsg, e)
    else
      let e2 := e + dur k
      match call k with
      | .error m => .error (m, e2)
      | .ok body =>
        match imgLoop call dur fb rest (k + 1) e2 with
        | .error x => .error x
        | .ok (urls, e3) => .ok (jsStrOr body fb :: urls, e3)

/-- LoremFlickr URLs of the Anthropic adapter
(`popularSpots.map(spot => ...${encodeURIComponent(spot.name)})`);
reading `spot.name` throws on a `null` element. -/
def mapSpotNames : List Json → Except String (List String)
  | [] => .ok []
  | spot :: rest =>
    match jsGet spot "name" with
    | .error m => .error m
    | .ok nameV =>
      match mapSpotNames rest with
      | .error m => .error m
      | .ok urls =>
        .ok (("https://loremflickr.com/600/400/" ++
          encodeURIComponent (jsTemplateStr nameV)) :: urls)

/-- Name-seeded Picsum URLs of the OpenAI adapter for the attractions past
the third (`for i in 3..n`); reading `spot.name` throws on `null`. -/
def picsumNames : List Json → Except String (List String)
  | [] => .ok []
  | spot :: rest =>
    match jsGet spot "name" with
    | .error m => .error m
    | .ok nameV =>
      match picsumNames rest with
      | .error m => .error m
      | .ok urls =>
        .ok (("https://picsum.photos/seed/" ++ jsTemplateStr nameV ++
          "/600/400") :: urls)

/-- Index-seeded Picsum URLs of the Gemini adapter for the attractions past
the third (`for i in 3..n`, pushing `...?random=${i}`). -/
def geminiExtra (n : Nat) : List String :=
  (List.range' 3 (n - 3)).map fun i =>
    "https://picsum.photos/600/400?random=" ++ toString i

/-- The Anthropic adapter `callAnthropicAPI`: text call, tolerant JSON
extraction, deterministic LoremFlickr image URLs (no further network
calls), metrics with `usage` token fields or the `'N/A'` fallback. -/
def callAnthropicAPI (env : AnthropicEnv) (userInput : String) : ApiResponse :=
  match env.call with
  | .error m => anthropicFailure env.callDur m
  | .ok data =>
    let latencyMs := env.callDur
    if data.ok = false then
      anthropicFailure env.callDur (jsStrOr data.errMsg "Anthropic API error")
    else
      match data.text with
      | none => anthropicFailure env.callDur typeErrorMsg
      | some text =>
        match tolerantDecode text with
        | .error m => anthropicFailure env.callDur m
        | .ok tripBrief =>
          match jsGet tripBrief "destination" with
          | .error m => anthropicFailure env.callDur m
          | .ok destV =>
            let destinationImage :=
              "https://loremflickr.com/800/600/" ++
                encodeURIComponent (jsTemplateStr destV)
            match jsGetArr tripBrief "popularSpots" with
            | .error m => anthropicFailure env.callDur m
            | .ok spots =>
              match mapSpotNames spots with
              | .error m => anthropicFailure env.callDur m
              | .ok attractionImages =>
                { tripBrief := tripBrief
                  destinationImage := destinationImage
                  attractionImages := attractionImages
                  metrics :=
                    { latencyMs := latencyMs
                      inputTokens := jsNumOr data.inTok "N/A"
                      outputTokens := jsNumOr data.outTok "N/A"
                      provider := "Anthropic"
                      model := "Claude Sonnet 4 (LoremFlickr)" }
                  error := none }

/-- The OpenAI adapter `callOpenAIAPI`, instrumented with the wall-clock
elapsed time at the moment it returns (second component); the recorded
`latencyMs` is computed right after the text call settles, before any
image-generation call. -/
def callOpenAIAPIT (env : ImgEnv) (userInput : String) : ApiResponse × Nat :=
  if env.hasKey = false then
    (openaiFailure 0 "OpenAI key not configured", 0)
  else
    match env.call with
    | .error m => (openaiFailure env.callDur m, env.callDur)
    | .ok data =>
      let latencyMs := env.callDur
      if data.ok = false then
        (openaiFailure env.callDur (jsStrOr data.errMsg "API error"), env.callDur)
      else
        match data.text with
        | none => (openaiFailure env.callDur typeErrorMsg, env.callDur)
        | some text =>
          match tolerantDecode text with
          | .error m => (openaiFailure env.callDur m, env.callDur)
          | .ok tripBrief =>
            match jsGet tripBrief "destinationImagePrompt" with
            | .error m => (openaiFailure env.callDur m, env.callDur)
            | .ok _ =>
              let e1 := env.callDur + env.imgDur 0
              match env.img 0 with
              | .error m => (openaiFailure e1 m, e1)
              | .ok destUrl =>
                let destinationImage := jsStrOr destUrl openaiDestFallback
                match jsGetArr tripBrief "popularSpots" with
                | .error m => (openaiFailure e1 m, e1)
                | .ok spots =>
                  match imgLoop env.img env.imgDur attrFallback
                      (spots.take 3) 1 e1 with
                  | .error (m, e2) => (openaiFailure e2 m, e2)
                  | .ok (resolved, e2) =>
                    match picsumNames (spots.drop 3) with
                    | .error m => (openaiFailure e2 m, e2)
                    | .ok extra =>
                      ({ tripBrief := tripBrief
                         destinationImage := destinationImage
                         attractionImages := resolved ++ extra
                         metrics :=
                           { latencyMs := latencyMs
                             inputTokens := jsNumOr data.inTok "N/A"
                             outputTokens := jsNumOr data.outTok "N/A"
                             provider := "OpenAI"
                             model := "GPT-4o + DALL-E 3" }
                         error := none }, e2)

/-- The OpenAI adapter's returned response. -/
def callOpenAIAPI (env : ImgEnv) (userInput : String) : ApiResponse :=
  (callOpenAIAPIT env userInput).1

/-- The Gemini adapter `callGeminiAPI`, instrumented like
`callOpenAIAPIT`; note the token fallbacks are the estimate strings
`'~250'` / `'~800'` instead of `'N/A'`. -/
def callGeminiAPIT (env : ImgEnv) (userInput : String) : ApiResponse × Nat :=
  if env.hasKey = false then
    (geminiFailure 0 "Gemini key not configured", 0)
  else
    match env.call with
    | .error m => (geminiFailure env.callDur m, env.callDur)
    | .ok data =>
      let latencyMs := env.callDur
      if data.ok = false then
        (geminiFailure env.callDur (jsStrOr data.errMsg "API error"), env.callDur)
      else
        match data.text with
        | none => (geminiFailure env.callDur typeErrorMsg, env.callDur)
        | some text =>
          match tolerantDecode text with
          | .error m => (geminiFailure env.callDur m, env.callDur)
          | .ok tripBrief =>
            match jsGet tripBrief "destinationImagePrompt" with
            | .error m => (geminiFailure env.callDur m, env.callDur)
            | .ok _ =>
              let e1 := env.callDur + env.imgDur 0
              match env.img 0 with
              | .error m => (geminiFailure e1 m, e1)
              | .ok destUrl =>
                let destinationImage := jsStrOr destUrl geminiDestFallback
                match jsGetArr tripBrief "popularSpots" with
                | .error m => (geminiFailure e1 m, e1)
                | .ok spots =>
                  match imgLoop env.img env.imgDur attrFallback
                      (spots.take 3) 1 e1 with
                  | .error (m, e2) => (geminiFailure e2 m, e2)
                  | .ok (resolved, e2) =>
                    ({ tripBrief := tripBrief
                       destinationImage := destinationImage
                       attractionImages := resolved ++ geminiExtra spots.length
                       metrics :=
                         { latencyMs := latencyMs
                           inputTokens := jsNumOr data.inTok "~250"
                           outputTokens := jsNumOr data.outTok "~800"
                           provider := "Google"
                           model := "Gemini 2.5 + Stability AI" }
                       error := none }, e2)

/-- The Gemini adapter's returned response. -/
def callGeminiAPI (env : ImgEnv) (userInput : String) : ApiResponse :=
  (callGeminiAPIT env userInput).1

/-! ### Orchestrator (`handleSubmit`) -/

/-- Outcome of a submission: either blocked by validation (with the
reported message, orchestrator never started) or the `setResults` mapping
with its three fixed provider slots. -/
inductive SubmitResult where
  | invalid (reason : String)
  | results (anthropic : ApiResponse) (openai : ApiResponse) (gemini : ApiResponse)

/-- The orchestrator `handleSubmit`: validate, and only if valid run the three adapters
(`Promise.all`) and populate all three slots of the results mapping. -/
def handleSubmit (aEnv : AnthropicEnv) (oEnv gEnv : ImgEnv)
    (input : String) : SubmitResult :=
  match validateReason input with
  | some reason => .invalid reason
  | none =>
    .results (callAnthropicAPI aEnv input) (callOpenAIAPI oEnv input)
      (callGeminiAPI gEnv input)

/-! ### Concrete fixtures used in counterexamples and witnesses -/

/-- An attraction object with the given name. -/
def spotNamed (nm : String) : Json :=
  Json.jobj [("name", Json.jstr nm), ("imagePrompt", Json.jstr "p")]

/-- Four concrete attractions. -/
def w4Spots : List Json := [spotNamed "A", spotNamed "B", spotNamed "C", spotNamed "D"]

/-- A concrete brief with four attractions. -/
def w4Brief : Json :=
  Json.jobj [("destinationImagePrompt", Json.jstr "d"),
    ("popularSpots", Json.jarr w4Spots)]

/-- Reply body decoding to `w4Brief`. -/
def w4Body : String :=
  "\x7b\"destinationImagePrompt\":\"d\",\"popularSpots\":[\x7b\"name\":\"A\",\"imagePrompt\":\"p\"\x7d,\x7b\"name\":\"B\",\"imagePrompt\":\"p\"\x7d,\x7b\"name\":\"C\",\"imagePrompt\":\"p\"\x7d,\x7b\"name\":\"D\",\"imagePrompt\":\"p\"\x7d]\x7d"

/-- A minimal brief with no attractions. -/
def brief0 : Json :=
  Json.jobj [("destinationImagePrompt", Json.jstr "p"), ("popularSpots", Json.jarr [])]

/-- Reply body decoding to `brief0`. -/
def body0 : String :=
  "\x7b\"destinationImagePrompt\":\"p\",\"popularSpots\":[]\x7d"

/-- A brief with one attraction. -/
def brief1 : Json :=
  Json.jobj [("destinationImagePrompt", Json.jstr "p"),
    ("popularSpots", Json.jarr [spotNamed "A"])]

/-- Reply body decoding to `brief1`. -/
def body1 : String :=
  "\x7b\"destinationImagePrompt\":\"p\",\"popularSpots\":[\x7b\"name\":\"A\",\"imagePrompt\":\"p\"\x7d]\x7d"

/-- A successful text reply whose body is `w4Body`, with usage reported. -/
def okResp4 : TextResp :=
  { ok := true, errMsg := none, text := some w4Body, inTok := some 100, outTok := some 200 }

/-- The image-call oracle answering `"u<k>"` for call `k`. -/
def urlW : Nat → Option String := fun k => some ("u" ++ toString k)

/-- Fully successful image-backed environment over `w4Body`. -/
def envW : ImgEnv :=
  { hasKey := true, call := .ok okResp4, callDur := 10,
    img := fun k => .ok (urlW k), imgDur := fun _ => 7 }

/-- Environment whose image backend throws (transport error / malformed
payload) while the text backend succeeds over `body0`. -/
def transportEnv : ImgEnv :=
  { hasKey := true
    call := .ok { ok := true, errMsg := none, text := some body0,
                  inTok := some 100, outTok := some 200 }
    callDur := 10
    img := fun _ => .error "fetch failed"
    imgDur := fun _ => 1 }

/-- Environment whose image backend settles with an error body (no `url`
field), text backend succeeding over `w4Body`. -/
def graceEnv : ImgEnv :=
  { hasKey := true, call := .ok okResp4, callDur := 10,
    img := fun _ => .ok none, imgDur := fun _ => 7 }

/-- Successful text reply over `body0` that omits both usage fields. -/
def respNoUsage : TextResp :=
  { ok := true, errMsg := none, text := some body0,
    inTok := none, outTok := none }

/-- Successful environment over `body0` whose reply omits both usage
fields. -/
def noUsageEnv : ImgEnv :=
  { hasKey := true
    call := .ok respNoUsage
    callDur := 3
    img := fun _ => .ok (some "u"), imgDur := fun _ => 2 }

/-- Anthropic environment over `body0` without usage fields. -/
def noUsageEnvA : AnthropicEnv :=
  { call := .ok respNoUsage
    callDur := 5 }

/-- Successful text reply over `body1` with usage reported. -/
def respBody1 : TextResp :=
  { ok := true, errMsg := none, text := some body1,
    inTok := some 1, outTok := some 2 }

/-- Successful environment over `body1` (one attraction), used to compare
the recorded latency with the wall clock at pipeline completion. -/
def latencyEnv : ImgEnv :=
  { hasKey := true
    call := .ok respBody1
    callDur := 10
    img := fun _ => .ok (some "u"), imgDur := fun _ => 7 }

/-- A text reply that is prose with no decodable JSON. -/
def respProse : TextResp :=
  { ok := true, errMsg := none, text := some "no json at all",
    inTok := some 1, outTok := some 2 }

/-- Anthropic environment whose reply is prose with no decodable JSON. -/
def proseEnvA : AnthropicEnv :=
  { call := .ok respProse
    callDur := 5 }

/-- A default Anthropic environment (failing transport). -/
def anthDown : AnthropicEnv := { call := .error "down", callDur := 0 }

/-- A default image-backed environment (missing key). -/
def imgDown : ImgEnv :=
  { hasKey := false, call := .error "down", callDur := 0,
    img := fun _ => .ok none, imgDur := fun _ => 0 }

/-- Text reply over `body0` reporting zero tokens in both usage fields. -/
def respZero : TextResp :=
  { ok := true, errMsg := none, text := some body0,
    inTok := some 0, outTok := some 0 }

/-- Anthropic environment over `body0` whose reply reports zero tokens. -/
def zeroUsageEnvA : AnthropicEnv :=
  { call := .ok respZero
    callDur := 4 }

/-- A valid request text (passes all three validator checks). -/
def validText : String :=
  "Family trip to Rome, 2 adults and 2 kids ages 7 and 9"

/-! ## Theorems -/

/-- The three validation messages are pairwise distinct. -/
lemma msgs_distinct :
    missingDestinationMsg ≠ missingTravelerMsg ∧
    missingDestinationMsg ≠ missingAgeMsg ∧
    missingTravelerMsg ≠ missingAgeMsg := by
  refine ⟨?_, ?_, ?_⟩ <;> decide

/-- C5: the validator applies exactly three checks in order, short-circuiting
at the first failure: it fails with the missing-destination reason iff the
length is not greater than 10; otherwise with the missing-traveler reason iff
the text matches neither the digit-plus-count-noun pattern nor the
qualitative group pattern; otherwise with the missing-age reason iff no age
word occurs; otherwise it is valid.  All matching is case-insensitive: the
signals only depend on the lower-cased text. -/
theorem validator_three_checks (t : String) :
    (hasDestination t = decide (10 < t.length)
      ∧ hasPeopleCount t =
          (countMatch (lowerData t) || anyWord groupWords (lowerData t))
      ∧ hasAgeInfo t = anyWord ageWords (lowerData t))
  ∧ (validateReason t = some missingDestinationMsg ↔ hasDestination t = false)
  ∧ (validateReason t = some missingTravelerMsg ↔
      hasDestination t = true ∧ hasPeopleCount t = false)
  ∧ (validateReason t = some missingAgeMsg ↔
      hasDestination t = true ∧ hasPeopleCount t = true ∧ hasAgeInfo t = false)
  ∧ (validateReason t = none ↔
      hasDestination t = true ∧ hasPeopleCount t = true ∧ hasAgeInfo t = true)
  ∧ (∀ u : String, lowerData t = lowerData u →
      hasPeopleCount t = hasPeopleCount u ∧ hasAgeInfo t = hasAgeInfo u) := by
  obtain ⟨m1, m2, m3⟩ := msgs_distinct
  have hCI : ∀ u : String, lowerData t = lowerData u →
      hasPeopleCount t = hasPeopleCount u ∧ hasAgeInfo t = hasAgeInfo u := by
    intro u h
    unfold hasPeopleCount hasAgeInfo
    rw [h]
    exact ⟨rfl, rfl⟩
  refine ⟨⟨rfl, rfl, rfl⟩, ?_, ?_, ?_, ?_, hCI⟩ <;>
    cases hD : hasDestination t <;>
      cases hP : hasPeopleCount t <;>
        cases hA : hasAgeInfo t <;>
          simp [validateReason, hD, hP, hA, m1, m2, m3, Ne.symm m1, Ne.symm m2,
            Ne.symm m3]

/-- C5 witness: concrete instances of `validator_three_checks`. -/
theorem validator_three_checks_witness :
    validateReason "Paris" = some missingDestinationMsg ∧
    hasPeopleCount "2 ADULTS going" = hasPeopleCount "2 adults going" :=
  ⟨(validator_three_checks "Paris").2.1.mpr (by decide),
   ((validator_three_checks "2 ADULTS going").2.2.2.2.2 "2 adults going"
     (by decide)).1⟩

/-- C9 counterexample: on the input `"Paris"` the validator fails with the
missing-destination reason (the 5-character text fails the length check
first), not with the missing-traveler-count reason the claim states. -/
theorem paris_counterexample :
    validateReason "Paris" = some missingDestinationMsg ∧
    validateReason "Paris" ≠ some missingTravelerMsg := by
  exact ⟨by decide, by decide⟩

/-- C9 (amended): on the input `"Paris"`, validation fails and the reason
reported is the missing-destination reason. -/
theorem paris_fails_missing_destination :
    validateReason "Paris" = some missingDestinationMsg := by
  decide

/-- C6: on any input failing validation, the submission returns the invalid
outcome carrying the first failing check's reason, for every adapter
environment — so the outcome is independent of all network oracles and the
orchestrator (which alone issues network calls) is never invoked. -/
theorem invalid_input_blocks_orchestrator (aEnv : AnthropicEnv)
    (oEnv gEnv : ImgEnv) (input r : String)
    (h : validateReason input = some r) :
    handleSubmit aEnv oEnv gEnv input = .invalid r := by
  unfold handleSubmit
  rw [h]

/-- C6 witness: `"Paris"` blocks the orchestrator. -/
theorem invalid_input_blocks_orchestrator_witness :
    handleSubmit anthDown imgDown imgDown "Paris" =
      .invalid missingDestinationMsg :=
  invalid_input_blocks_orchestrator anthDown imgDown imgDown "Paris"
    missingDestinationMsg (by decide)

/-- C1: on any input passing validation, the submission runs all three
adapters and the results mapping has all three provider slots populated,
each slot being exactly its own adapter's `ApiResponse` (a total function
of that adapter's own environment, so an error is captured as data in its
own slot and one adapter's outcome cannot affect the others). -/
theorem valid_input_populates_all_slots (aEnv : AnthropicEnv)
    (oEnv gEnv : ImgEnv) (input : String)
    (h : validateReason input = none) :
    handleSubmit aEnv oEnv gEnv input =
      .results (callAnthropicAPI aEnv input) (callOpenAIAPI oEnv input)
        (callGeminiAPI gEnv input) := by
  unfold handleSubmit
  rw [h]

/-- C1 witness: a concrete valid input with concrete environments. -/
theorem valid_input_populates_all_slots_witness :
    handleSubmit anthDown imgDown imgDown validText =
      .results (callAnthropicAPI anthDown validText)
        (callOpenAIAPI imgDown validText) (callGeminiAPI imgDown validText) :=
  valid_input_populates_all_slots anthDown imgDown imgDown validText
    (by decide)

/-- Building `String.mk` undoes `String.data`. -/
lemma mk_data (l : List Char) : (String.mk l).data = l := rfl

/-- Character data of an appended string. -/
lemma data_append (a b : String) : (a ++ b).data = a.data ++ b.data := rfl

/-- A list without right braces has no last-right-brace cut. -/
lemma takeToLastR_eq_none (ys : List Char) (h : rbrace ∉ ys) :
    takeToLastR ys = none := by
  induction ys with
  | nil => rfl
  | cons c rest ih =>
    have hc : c ≠ rbrace := fun hh => h (hh ▸ List.mem_cons_self c rest)
    have hr : rbrace ∉ rest := fun hh => h (List.mem_cons_of_mem c hh)
    simp [takeToLastR, ih hr, hc]

/-- Appending a suffix without right braces does not move the cut. -/
lemma takeToLastR_append_of_none (xs ys : List Char)
    (h : takeToLastR ys = none) :
    takeToLastR (xs ++ ys) = takeToLastR xs := by
  induction xs with
  | nil => simpa using h
  | cons c rest ih => simp [takeToLastR, ih]

/-- A list ending in a right brace cuts at its end. -/
lemma takeToLastR_concat (xs : List Char) :
    takeToLastR (xs ++ [rbrace]) = some (xs ++ [rbrace]) := by
  induction xs with
  | nil => simp [takeToLastR]
  | cons c rest ih => simp [takeToLastR, ih]

/-- A prefix without left braces does not affect the extracted span. -/
lemma extractSpanL_append_of_no_lbrace (xs ys : List Char)
    (h : lbrace ∉ xs) :
    extractSpanL (xs ++ ys) = extractSpanL ys := by
  induction xs with
  | nil => rfl
  | cons c rest ih =>
    have hc : c ≠ lbrace := fun hh => h (hh ▸ List.mem_cons_self c rest)
    have hr : lbrace ∉ rest := fun hh => h (List.mem_cons_of_mem c hh)
    simp [extractSpanL, hc, ih hr]

/-- C7: tolerant extraction decodes exactly the brace span — from the first
left brace to the last right brace — ignoring surrounding prose; when the
regex finds no span the entire reply body is decoded instead; the chosen
argument is decoded whether or not that decode succeeds (no retry with the
other argument), and a decode failure makes the adapter return a `Failure`
carrying the parse-error message. -/
theorem tolerant_extraction_behavior :
    (∀ s sp : String, extractSpan s = some sp →
      tolerantDecode s = jsonParse sp)
  ∧ (∀ (a c : String) (mid : List Char), lbrace ∉ a.data → rbrace ∉ c.data →
      extractSpan (a ++ String.mk (lbrace :: (mid ++ [rbrace])) ++ c) =
        some (String.mk (lbrace :: (mid ++ [rbrace]))))
  ∧ (∀ s : String, extractSpan s = none → tolerantDecode s = jsonParse s)
  ∧ (∀ (env : AnthropicEnv) (u : String) (data : TextResp) (t m : String),
      env.call = .ok data → data.ok = true → data.text = some t →
      tolerantDecode t = .error m →
      callAnthropicAPI env u = anthropicFailure env.callDur m) := by
  refine ⟨?_, ?_, ?_, ?_⟩
  · intro s sp h
    unfold tolerantDecode
    rw [h]
  · intro a c mid ha hc
    have h1 : takeToLastR (mid ++ rbrace :: c.data) = some (mid ++ [rbrace]) := by
      have he : mid ++ rbrace :: c.data = (mid ++ [rbrace]) ++ c.data := by simp
      rw [he, takeToLastR_append_of_none _ _ (takeToLastR_eq_none _ hc),
        takeToLastR_concat]
    have hdata : (a ++ String.mk (lbrace :: (mid ++ [rbrace])) ++ c).data
        = a.data ++ (lbrace :: ((mid ++ [rbrace]) ++ c.data)) := by
      simp [data_append, mk_data, List.append_assoc]
    unfold extractSpan
    rw [hdata, extractSpanL_append_of_no_lbrace _ _ ha]
    simp [extractSpanL, h1]
  · intro s h
    unfold tolerantDecode
    rw [h]
  · intro env u data t m hc hok ht hd
    unfold callAnthropicAPI
    rw [hc]
    simp [hok, ht, hd]

/-- Characterization of the sequential image loop when every spot is
non-null and every image call settles with a body. -/
lemma imgLoop_ok (call : Nat → Except String (Option String)) (dur : Nat → Nat)
    (fb : String) (urlF : Nat → Option String) (l : List Json) (k e : Nat)
    (hnn : ∀ s ∈ l, s.isNull = false)
    (hc : ∀ i, call i = .ok (urlF i)) :
    ∃ e2, imgLoop call dur fb l k e =
      .ok ((List.range l.length).map fun i => jsStrOr (urlF (k + i)) fb, e2) := by
  induction l generalizing k e with
  | nil => exact ⟨e, rfl⟩
  | cons spot rest ih =>
    have h0 : spot.isNull = false := hnn spot (List.mem_cons_self _ _)
    have hr : ∀ s ∈ rest, s.isNull = false := fun s hs =>
      hnn s (List.mem_cons_of_mem _ hs)
    obtain ⟨e2, he2⟩ := ih (k + 1) (e + dur k) hr
    refine ⟨e2, ?_⟩
    have hr2 : (List.range (rest.length + 1)).map
        (fun i => jsStrOr (urlF (k + i)) fb)
        = jsStrOr (urlF k) fb ::
          (List.range rest.length).map (fun i => jsStrOr (urlF (k + 1 + i)) fb) := by
      rw [List.range_succ_eq_map, List.map_cons, List.map_map]
      refine congrArg₂ List.cons (by simp) (List.map_congr_left fun i _ => ?_)
      have hs : k + (i + 1) = k + 1 + i := by omega
      simp [Function.comp, Nat.succ_eq_add_one, hs]
    simp only [List.length_cons, hr2]
    simp only [imgLoop, h0, Bool.false_eq_true, if_false, hc k, he2]

/-- Characterization of the Picsum name-seeded fallback list when every
spot is non-null. -/
lemma picsumNames_ok (l : List Json) (hnn : ∀ s ∈ l, s.isNull = false) :
    picsumNames l = .ok (l.map fun s =>
      "https://picsum.photos/seed/" ++ jsTemplateStr (fieldOf s "name") ++
        "/600/400") := by
  induction l with
  | nil => rfl
  | cons spot rest ih =>
    have h0 : spot.isNull = false := hnn spot (List.mem_cons_self _ _)
    have hr : ∀ s ∈ rest, s.isNull = false := fun s hs =>
      hnn s (List.mem_cons_of_mem _ hs)
    simp [picsumNames, jsGet, h0, ih hr]

/-- Characterization of the LoremFlickr list when every spot is non-null. -/
lemma mapSpotNames_ok (l : List Json) (hnn : ∀ s ∈ l, s.isNull = false) :
    mapSpotNames l = .ok (l.map fun s =>
      "https://loremflickr.com/600/400/" ++
        encodeURIComponent (jsTemplateStr (fieldOf s "name"))) := by
  induction l with
  | nil => rfl
  | cons spot rest ih =>
    have h0 : spot.isNull = false := hnn spot (List.mem_cons_self _ _)
    have hr : ∀ s ∈ rest, s.isNull = false := fun s hs =>
      hnn s (List.mem_cons_of_mem _ hs)
    simp [mapSpotNames, jsGet, h0, ih hr]

/-- Closed form of a fully successful Anthropic adapter run. -/
lemma anthropic_run_eq (env : AnthropicEnv) (u : String) (data : TextResp)
    (t : String) (brief : Json) (spots : List Json) (imgs : List String)
    (hcall : env.call = .ok data) (hok : data.ok = true)
    (ht : data.text = some t) (hdec : tolerantDecode t = .ok brief)
    (hbn : brief.isNull = false)
    (hspots : jsGetArr brief "popularSpots" = .ok spots)
    (himgs : mapSpotNames spots = .ok imgs) :
    callAnthropicAPI env u =
      { tripBrief := brief
        destinationImage := "https://loremflickr.com/800/600/" ++
          encodeURIComponent (jsTemplateStr (fieldOf brief "destination"))
        attractionImages := imgs
        metrics :=
          { latencyMs := env.callDur
            inputTokens := jsNumOr data.inTok "N/A"
            outputTokens := jsNumOr data.outTok "N/A"
            provider := "Anthropic"
            model := "Claude Sonnet 4 (LoremFlickr)" }
        error := none } := by
  unfold callAnthropicAPI
  rw [hcall]
  simp [hok, ht, hdec, jsGet, hbn, hspots, himgs]

/-- Closed form of a fully successful OpenAI adapter run, with the
wall-clock time at return. -/
lemma openai_run_eq (env : ImgEnv) (u : String) (data : TextResp)
    (t : String) (brief : Json) (spots : List Json) (destUrl : Option String)
    (resolved : List String) (e2 : Nat) (extra : List String)
    (hk : env.hasKey = true) (hcall : env.call = .ok data)
    (hok : data.ok = true) (ht : data.text = some t)
    (hdec : tolerantDecode t = .ok brief) (hbn : brief.isNull = false)
    (hdest : env.img 0 = .ok destUrl)
    (hspots : jsGetArr brief "popularSpots" = .ok spots)
    (hloop : imgLoop env.img env.imgDur attrFallback (spots.take 3) 1
        (env.callDur + env.imgDur 0) = .ok (resolved, e2))
    (hextra : picsumNames (spots.drop 3) = .ok extra) :
    callOpenAIAPIT env u =
      ({ tripBrief := brief
         destinationImage := jsStrOr destUrl openaiDestFallback
         attractionImages := resolved ++ extra
         metrics :=
           { latencyMs := env.callDur
             inputTokens := jsNumOr data.inTok "N/A"
             outputTokens := jsNumOr data.outTok "N/A"
             provider := "OpenAI"
             model := "GPT-4o + DALL-E 3" }
         error := none }, e2) := by
  unfold callOpenAIAPIT
  rw [hcall]
  simp [hk, hok, ht, hdec, jsGet, hbn, hdest, hspots, hloop, hextra]

/-- Closed form of a fully successful Gemini adapter run, with the
wall-clock time at return. -/
lemma gemini_run_eq (env : ImgEnv) (u : String) (data : TextResp)
    (t : String) (brief : Json) (spots : List Json) (destUrl : Option String)
    (resolved : List String) (e2 : Nat)
    (hk : env.hasKey = true) (hcall : env.call = .ok data)
    (hok : data.ok = true) (ht : data.text = some t)
    (hdec : tolerantDecode t = .ok brief) (hbn : brief.isNull = false)
    (hdest : env.img 0 = .ok destUrl)
    (hspots : jsGetArr brief "popularSpots" = .ok spots)
    (hloop : imgLoop env.img env.imgDur attrFallback (spots.take 3) 1
        (env.callDur + env.imgDur 0) = .ok (resolved, e2)) :
    callGeminiAPIT env u =
      ({ tripBrief := brief
         destinationImage := jsStrOr destUrl geminiDestFallback
         attractionImages := resolved ++ geminiExtra spots.length
         metrics :=
           { latencyMs := env.callDur
             inputTokens := jsNumOr data.inTok "~250"
             outputTokens := jsNumOr data.outTok "~800"
             provider := "Google"
             model := "Gemini 2.5 + Stability AI" }
         error := none }, e2) := by
  unfold callGeminiAPIT
  rw [hcall]
  simp [hk, hok, ht, hdec, jsGet, hbn, hdest, hspots, hloop]

/-- C2 counterexample: a run whose text call succeeds and whose brief
decodes, but whose image-resolution call throws (transport error): the
adapter's outer catch turns the whole run into a `Failure`, contradicting
the claim that an image failure never produces a `Failure`. -/
theorem image_failure_fails_pipeline_counterexample :
    tolerantDecode body0 = .ok brief0 ∧
    transportEnv.img 0 = .error "fetch failed" ∧
    (callOpenAIAPI transportEnv "trip").error = some "fetch failed" :=
  ⟨rfl, rfl, rfl⟩

/-- C2 (amended): an image-resolution failure that still settles with a
parseable body lacking a `url` field (e.g. a non-2xx error body from the
proxy) never turns the pipeline into a `Failure`: the slot is still a
`Success` and every affected image slot holds the fallback placeholder.
(An image call that throws — transport error or malformed payload — is
instead caught by the adapter's outer handler and fails the run.) -/
theorem image_error_body_graceful (env : ImgEnv) (u : String)
    (data : TextResp) (t : String) (brief : Json) (spots : List Json)
    (hk : env.hasKey = true) (hcall : env.call = .ok data)
    (hok : data.ok = true) (ht : data.text = some t)
    (hdec : tolerantDecode t = .ok brief) (hbn : brief.isNull = false)
    (hspots : jsGetArr brief "popularSpots" = .ok spots)
    (hnn : ∀ s ∈ spots, s.isNull = false)
    (himg : ∀ k, env.img k = .ok none) :
    ((callOpenAIAPI env u).error = none ∧
     (callOpenAIAPI env u).destinationImage = openaiDestFallback ∧
     (callOpenAIAPI env u).attractionImages.take (min 3 spots.length) =
       List.replicate (min 3 spots.length) attrFallback)
  ∧ ((callGeminiAPI env u).error = none ∧
     (callGeminiAPI env u).destinationImage = geminiDestFallback ∧
     (callGeminiAPI env u).attractionImages.take (min 3 spots.length) =
       List.replicate (min 3 spots.length) attrFallback) := by
  have hnnT : ∀ s ∈ spots.take 3, s.isNull = false := fun s hs =>
    hnn s (List.take_subset _ _ hs)
  have hnnD : ∀ s ∈ spots.drop 3, s.isNull = false := fun s hs =>
    hnn s (List.drop_subset _ _ hs)
  obtain ⟨e2, hloop⟩ := imgLoop_ok env.img env.imgDur attrFallback
    (fun _ => none) (spots.take 3) 1 (env.callDur + env.imgDur 0) hnnT himg
  have hres : ((List.range (spots.take 3).length).map
      fun _ => jsStrOr none attrFallback) =
      List.replicate (min 3 spots.length) attrFallback := by
    rw [List.map_const', List.length_range, List.length_take]
    rfl
  rw [hres] at hloop
  have hextra := picsumNames_ok (spots.drop 3) hnnD
  have ho := openai_run_eq env u data t brief spots none
    (List.replicate (min 3 spots.length) attrFallback) e2 _
    hk hcall hok ht hdec hbn (himg 0) hspots hloop hextra
  have hg := gemini_run_eq env u data t brief spots none
    (List.replicate (min 3 spots.length) attrFallback) e2
    hk hcall hok ht hdec hbn (himg 0) hspots hloop
  constructor
  · unfold callOpenAIAPI
    rw [ho]
    refine ⟨rfl, rfl, ?_⟩
    exact List.take_left' (List.length_replicate _ _)
  · unfold callGeminiAPI
    rw [hg]
    refine ⟨rfl, rfl, ?_⟩
    exact List.take_left' (List.length_replicate _ _)

/-- C2 witness: a concrete run over `w4Body` in which every image call
settles with a body lacking `url`. -/
theorem image_error_body_graceful_witness :
    (callOpenAIAPI graceEnv "x").error = none ∧
    (callOpenAIAPI graceEnv "x").destinationImage = openaiDestFallback ∧
    (callOpenAIAPI graceEnv "x").attractionImages.take (min 3 w4Spots.length) =
      List.replicate (min 3 w4Spots.length) attrFallback :=
  (image_error_body_graceful graceEnv "x" okResp4 w4Body w4Brief w4Spots
    rfl rfl rfl rfl rfl rfl rfl (by decide) (fun _ => rfl)).1

/-- C3 counterexample: a Gemini run whose reply omits both usage fields
records the estimate strings `"~250"` / `"~800"`, not the literal
`"not available"` the claim requires, and an estimate is substituted. -/
theorem usage_not_available_counterexample :
    noUsageEnv.call = .ok respNoUsage ∧ respNoUsage.inTok = none ∧
    (callGeminiAPI noUsageEnv "trip").metrics.inputTokens = .str "~250" ∧
    (callGeminiAPI noUsageEnv "trip").metrics.outputTokens = .str "~800" ∧
    TokVal.str "~250" ≠ TokVal.str "not available" :=
  ⟨rfl, rfl, rfl, rfl, by decide⟩

/-- C3 (amended): when the reply omits its usage fields, the metrics hold
each adapter's own fallback string: the literal `"N/A"` for the Anthropic
and OpenAI adapters, and the estimate strings `"~250"` / `"~800"` for the
Gemini adapter. -/
theorem usage_fallback_strings (aEnv : AnthropicEnv) (env : ImgEnv)
    (u : String) (aData data : TextResp) (ta t : String)
    (aBrief brief : Json) (aSpots spots : List Json) (aImgs : List String)
    (destUrl : Option String) (resolved : List String) (e2 : Nat)
    (extra : List String)
    (ha1 : aEnv.call = .ok aData) (ha2 : aData.ok = true)
    (ha3 : aData.text = some ta) (ha4 : tolerantDecode ta = .ok aBrief)
    (ha5 : aBrief.isNull = false)
    (ha6 : jsGetArr aBrief "popularSpots" = .ok aSpots)
    (ha7 : mapSpotNames aSpots = .ok aImgs)
    (ha8 : aData.inTok = none) (ha9 : aData.outTok = none)
    (h1 : env.hasKey = true) (h2 : env.call = .ok data) (h3 : data.ok = true)
    (h4 : data.text = some t) (h5 : tolerantDecode t = .ok brief)
    (h6 : brief.isNull = false) (h7 : env.img 0 = .ok destUrl)
    (h8 : jsGetArr brief "popularSpots" = .ok spots)
    (h9 : imgLoop env.img env.imgDur attrFallback (spots.take 3) 1
        (env.callDur + env.imgDur 0) = .ok (resolved, e2))
    (h10 : picsumNames (spots.drop 3) = .ok extra)
    (h11 : data.inTok = none) (h12 : data.outTok = none) :
    ((callAnthropicAPI aEnv u).metrics.inputTokens = .str "N/A" ∧
     (callAnthropicAPI aEnv u).metrics.outputTokens = .str "N/A")
  ∧ ((callOpenAIAPI env u).metrics.inputTokens = .str "N/A" ∧
     (callOpenAIAPI env u).metrics.outputTokens = .str "N/A")
  ∧ ((callGeminiAPI env u).metrics.inputTokens = .str "~250" ∧
     (callGeminiAPI env u).metrics.outputTokens = .str "~800") := by
  refine ⟨?_, ?_, ?_⟩
  · rw [anthropic_run_eq aEnv u aData ta aBrief aSpots aImgs
      ha1 ha2 ha3 ha4 ha5 ha6 ha7]
    rw [ha8, ha9]
    exact ⟨rfl, rfl⟩
  · unfold callOpenAIAPI
    rw [openai_run_eq env u data t brief spots destUrl resolved e2 extra
      h1 h2 h3 h4 h5 h6 h7 h8 h9 h10]
    rw [h11, h12]
    exact ⟨rfl, rfl⟩
  · unfold callGeminiAPI
    rw [gemini_run_eq env u data t brief spots destUrl resolved e2
      h1 h2 h3 h4 h5 h6 h7 h8 h9]
    rw [h11, h12]
    exact ⟨rfl, rfl⟩

/-- C3 witness: concrete runs over `body0` with usage fields absent. -/
theorem usage_fallback_strings_witness :
    ((callAnthropicAPI noUsageEnvA "x").metrics.inputTokens = .str "N/A" ∧
     (callAnthropicAPI noUsageEnvA "x").metrics.outputTokens = .str "N/A")
  ∧ ((callOpenAIAPI noUsageEnv "x").metrics.inputTokens = .str "N/A" ∧
     (callOpenAIAPI noUsageEnv "x").metrics.outputTokens = .str "N/A")
  ∧ ((callGeminiAPI noUsageEnv "x").metrics.inputTokens = .str "~250" ∧
     (callGeminiAPI noUsageEnv "x").metrics.outputTokens = .str "~800") :=
  usage_fallback_strings noUsageEnvA noUsageEnv "x" respNoUsage respNoUsage
    body0 body0 brief0 brief0 [] [] [] (some "u") [] 5 []
    rfl rfl rfl rfl rfl rfl rfl rfl rfl
    rfl rfl rfl rfl rfl rfl rfl rfl rfl rfl rfl rfl

/-- C4 counterexample: a successful OpenAI run (one attraction, text call
10 ms, each image call 7 ms) records `latencyMs = 10` although the wall
clock at completion of the image-resolution step is 24 ms — the recorded
latency does not measure the full pipeline. -/
theorem latency_full_pipeline_counterexample :
    (callOpenAIAPIT latencyEnv "trip").1.error = none ∧
    (callOpenAIAPIT latencyEnv "trip").1.metrics.latencyMs = 10 ∧
    (callOpenAIAPIT latencyEnv "trip").2 = 24 ∧ (10 : Nat) ≠ 24 :=
  ⟨rfl, rfl, rfl, by decide⟩

/-- C4 (amended): for every successful run of an image-backed adapter, the
recorded `latencyMs` is the wall-clock duration of the text-generation call
alone (`env.callDur`, captured right after its body is read), while the
pipeline only completes at the instrumented time `e2`, which additionally
contains the image-resolution durations. -/
theorem latency_measures_text_call (env : ImgEnv) (u : String)
    (data : TextResp) (t : String) (brief : Json) (spots : List Json)
    (destUrl : Option String) (resolved : List String) (e2 : Nat)
    (extra : List String)
    (h1 : env.hasKey = true) (h2 : env.call = .ok data) (h3 : data.ok = true)
    (h4 : data.text = some t) (h5 : tolerantDecode t = .ok brief)
    (h6 : brief.isNull = false) (h7 : env.img 0 = .ok destUrl)
    (h8 : jsGetArr brief "popularSpots" = .ok spots)
    (h9 : imgLoop env.img env.imgDur attrFallback (spots.take 3) 1
        (env.callDur + env.imgDur 0) = .ok (resolved, e2))
    (h10 : picsumNames (spots.drop 3) = .ok extra) :
    ((callOpenAIAPIT env u).1.error = none ∧
     (callOpenAIAPIT env u).1.metrics.latencyMs = env.callDur ∧
     (callOpenAIAPIT env u).2 = e2)
  ∧ ((callGeminiAPIT env u).1.error = none ∧
     (callGeminiAPIT env u).1.metrics.latencyMs = env.callDur ∧
     (callGeminiAPIT env u).2 = e2) := by
  constructor
  · rw [openai_run_eq env u data t brief spots destUrl resolved e2 extra
      h1 h2 h3 h4 h5 h6 h7 h8 h9 h10]
    exact ⟨rfl, rfl, rfl⟩
  · rw [gemini_run_eq env u data t brief spots destUrl resolved e2
      h1 h2 h3 h4 h5 h6 h7 h8 h9]
    exact ⟨rfl, rfl, rfl⟩

/-- C4 witness: the concrete `latencyEnv` run (text 10 ms, images 7 ms
each): recorded latency 10, completion at 24. -/
theorem latency_measures_text_call_witness :
    ((callOpenAIAPIT latencyEnv "x").1.error = none ∧
     (callOpenAIAPIT latencyEnv "x").1.metrics.latencyMs = latencyEnv.callDur ∧
     (callOpenAIAPIT latencyEnv "x").2 = 24)
  ∧ ((callGeminiAPIT latencyEnv "x").1.error = none ∧
     (callGeminiAPIT latencyEnv "x").1.metrics.latencyMs = latencyEnv.callDur ∧
     (callGeminiAPIT latencyEnv "x").2 = 24) :=
  latency_measures_text_call latencyEnv "x" respBody1
    body1 brief1 [spotNamed "A"] (some "u") ["u"] 24 []
    rfl rfl rfl rfl rfl rfl rfl rfl rfl rfl

/-- C8: for every successful run of an image-backed adapter whose brief has
`n` attractions, `attractionImages[i]` corresponds to `attractions[i]` for
all `i`: the indices below `min 3 n` are obtained from the image resolver by
sequential calls in attraction order (slot `i` from call `i + 1`; call `0`
is the destination image), and every index from 3 up to `n - 1` is a
deterministic fallback derived from the attraction's name (OpenAI) or its
index (Gemini), independent of any image call. -/
theorem attraction_image_alignment (env : ImgEnv) (u : String)
    (data : TextResp) (t : String) (brief : Json) (spots : List Json)
    (urlF : Nat → Option String)
    (hk : env.hasKey = true) (hcall : env.call = .ok data)
    (hok : data.ok = true) (ht : data.text = some t)
    (hdec : tolerantDecode t = .ok brief) (hbn : brief.isNull = false)
    (hspots : jsGetArr brief "popularSpots" = .ok spots)
    (hnn : ∀ s ∈ spots, s.isNull = false)
    (himg : ∀ k, env.img k = .ok (urlF k)) :
    ((callOpenAIAPI env u).error = none
      ∧ (callOpenAIAPI env u).attractionImages.length = spots.length
      ∧ (∀ i, i < min 3 spots.length →
          (callOpenAIAPI env u).attractionImages[i]? =
            some (jsStrOr (urlF (i + 1)) attrFallback))
      ∧ (∀ i s, 3 ≤ i → spots[i]? = some s →
          (callOpenAIAPI env u).attractionImages[i]? =
            some ("https://picsum.photos/seed/" ++
              jsTemplateStr (fieldOf s "name") ++ "/600/400")))
  ∧ ((callGeminiAPI env u).error = none
      ∧ (callGeminiAPI env u).attractionImages.length = spots.length
      ∧ (∀ i, i < min 3 spots.length →
          (callGeminiAPI env u).attractionImages[i]? =
            some (jsStrOr (urlF (i + 1)) attrFallback))
      ∧ (∀ i, 3 ≤ i → i < spots.length →
          (callGeminiAPI env u).attractionImages[i]? =
            some ("https://picsum.photos/600/400?random=" ++ toString i))) := by
  have hnnT : ∀ s ∈ spots.take 3, s.isNull = false := fun s hs =>
    hnn s (List.take_subset _ _ hs)
  have hnnD : ∀ s ∈ spots.drop 3, s.isNull = false := fun s hs =>
    hnn s (List.drop_subset _ _ hs)
  obtain ⟨e2, hloop⟩ := imgLoop_ok env.img env.imgDur attrFallback urlF
    (spots.take 3) 1 (env.callDur + env.imgDur 0) hnnT himg
  have hextra := picsumNames_ok (spots.drop 3) hnnD
  have ho := openai_run_eq env u data t brief spots (urlF 0) _ e2 _
    hk hcall hok ht hdec hbn (himg 0) hspots hloop hextra
  have hg := gemini_run_eq env u data t brief spots (urlF 0) _ e2
    hk hcall hok ht hdec hbn (himg 0) hspots hloop
  have herrO : (callOpenAIAPI env u).error = none := by
    unfold callOpenAIAPI
    rw [ho]
  have herrG : (callGeminiAPI env u).error = none := by
    unfold callGeminiAPI
    rw [hg]
  have himO : (callOpenAIAPI env u).attractionImages =
      ((List.range (spots.take 3).length).map
        fun i => jsStrOr (urlF (1 + i)) attrFallback) ++
      ((spots.drop 3).map fun s => "https://picsum.photos/seed/" ++
        jsTemplateStr (fieldOf s "name") ++ "/600/400") := by
    unfold callOpenAIAPI
    rw [ho]
  have himG : (callGeminiAPI env u).attractionImages =
      ((List.range (spots.take 3).length).map
        fun i => jsStrOr (urlF (1 + i)) attrFallback) ++
      geminiExtra spots.length := by
    unfold callGeminiAPI
    rw [hg]
  have hfrontLen : ((List.range (spots.take 3).length).map
      fun i => jsStrOr (urlF (1 + i)) attrFallback).length = min 3 spots.length := by
    simp
  have hfront : ∀ i, i < min 3 spots.length →
      (((List.range (spots.take 3).length).map
        fun i => jsStrOr (urlF (1 + i)) attrFallback))[i]? =
        some (jsStrOr (urlF (i + 1)) attrFallback) := by
    intro i hi
    have hi3 : i < (spots.take 3).length := by
      simp only [List.length_take]
      exact hi
    rw [List.getElem?_map, List.getElem?_range hi3]
    simp [Nat.add_comm]
  refine ⟨⟨herrO, ?_, ?_, ?_⟩, herrG, ?_, ?_, ?_⟩
  · rw [himO]
    simp only [List.length_append, hfrontLen, List.length_map, List.length_drop]
    omega
  · intro i hi
    rw [himO, List.getElem?_append_left (hfrontLen ▸ hi), hfront i hi]
  · intro i s h3 hsome
    have hil : i < spots.length := by
      by_contra hcon
      rw [List.getElem?_eq_none (by omega)] at hsome
      exact Option.noConfusion hsome
    have hmin : min 3 spots.length = 3 := by omega
    have hge : (((List.range (spots.take 3).length).map
        fun i => jsStrOr (urlF (1 + i)) attrFallback)).length ≤ i := by
      rw [hfrontLen, hmin]
      exact h3
    rw [himO, List.getElem?_append_right hge, hfrontLen, hmin,
      List.getElem?_map, List.getElem?_drop]
    have h3i : 3 + (i - 3) = i := by omega
    rw [h3i, hsome]
    rfl
  · rw [himG]
    simp only [List.length_append, hfrontLen]
    unfold geminiExtra
    simp only [List.length_map, List.length_range']
    omega
  · intro i hi
    rw [himG, List.getElem?_append_left (hfrontLen ▸ hi), hfront i hi]
  · intro i h3 hil
    have hmin : min 3 spots.length = 3 := by omega
    have hge : (((List.range (spots.take 3).length).map
        fun i => jsStrOr (urlF (1 + i)) attrFallback)).length ≤ i := by
      rw [hfrontLen, hmin]
      exact h3
    rw [himG, List.getElem?_append_right hge, hfrontLen, hmin]
    unfold geminiExtra
    rw [List.getElem?_map]
    have hlt : i - 3 < spots.length - 3 := by omega
    rw [List.getElem?_range' _ _ hlt]
    have h3i : 3 + 1 * (i - 3) = i := by omega
    rw [h3i]
    rfl

/-- C8 witness: the concrete `envW` run over four attractions, at slot 1
(resolver call 2) and slot 3 (deterministic fallback). -/
theorem attraction_image_alignment_witness :
    (callOpenAIAPI envW "x").attractionImages[1]? =
      some (jsStrOr (urlW 2) attrFallback) ∧
    (callOpenAIAPI envW "x").attractionImages[3]? =
      some ("https://picsum.photos/seed/" ++
        jsTemplateStr (fieldOf (spotNamed "D") "name") ++ "/600/400") ∧
    (callGeminiAPI envW "x").attractionImages[3]? =
      some ("https://picsum.photos/600/400?random=" ++ toString 3) := by
  have h := attraction_image_alignment envW "x" okResp4 w4Body w4Brief w4Spots
    urlW rfl rfl rfl rfl rfl rfl rfl (by decide) (fun _ => rfl)
  exact ⟨h.1.2.2.1 1 (by decide), h.1.2.2.2 3 (spotNamed "D") (by decide) rfl,
    h.2.2.2.2 3 (by decide) (by decide)⟩

/-- Truthiness `count || fb` on a numeric usage field never yields the number 0. -/
lemma jsNumOr_ne_num_zero (v : Option Nat) (fb : String) :
    jsNumOr v fb ≠ .num 0 := by
  cases v with
  | none => simp [jsNumOr]
  | some n => by_cases h : n = 0 <;> simp [jsNumOr, h]

/-- No Anthropic run carries a zero token count in its metrics. -/
lemma anthropic_tokens_never_zero (env : AnthropicEnv) (u : String) :
    (callAnthropicAPI env u).metrics.inputTokens ≠ .num 0 ∧
    (callAnthropicAPI env u).metrics.outputTokens ≠ .num 0 := by
  unfold callAnthropicAPI
  constructor <;>
    · repeat' first
        | split
        | simp [anthropicFailure, jsNumOr_ne_num_zero]

/-- No OpenAI run carries a zero token count in its metrics. -/
lemma openai_tokens_never_zero (env : ImgEnv) (u : String) :
    (callOpenAIAPI env u).metrics.inputTokens ≠ .num 0 ∧
    (callOpenAIAPI env u).metrics.outputTokens ≠ .num 0 := by
  unfold callOpenAIAPI callOpenAIAPIT
  constructor <;>
    · repeat' first
        | split
        | simp [openaiFailure, jsNumOr_ne_num_zero]

/-- No Gemini run carries a zero token count in its metrics. -/
lemma gemini_tokens_never_zero (env : ImgEnv) (u : String) :
    (callGeminiAPI env u).metrics.inputTokens ≠ .num 0 ∧
    (callGeminiAPI env u).metrics.outputTokens ≠ .num 0 := by
  unfold callGeminiAPI callGeminiAPIT
  constructor <;>
    · repeat' first
        | split
        | simp [geminiFailure, jsNumOr_ne_num_zero]

/-- C10: a reported usage count of 0 is conflated with an absent field by
the truthiness test `count || fb`, so the metrics hold the adapter's
fallback string instead — `0` never appears as a token count in any
adapter's metrics, and a successful run whose reply reports 0 records the
fallback string. -/
theorem zero_token_count_conflated :
    (∀ fb : String, jsNumOr (some 0) fb = .str fb ∧
      jsNumOr (some 0) fb = jsNumOr none fb)
  ∧ (∀ (env : AnthropicEnv) (u : String),
      (callAnthropicAPI env u).metrics.inputTokens ≠ .num 0 ∧
      (callAnthropicAPI env u).metrics.outputTokens ≠ .num 0)
  ∧ (∀ (env : ImgEnv) (u : String),
      (callOpenAIAPI env u).metrics.inputTokens ≠ .num 0 ∧
      (callOpenAIAPI env u).metrics.outputTokens ≠ .num 0)
  ∧ (∀ (env : ImgEnv) (u : String),
      (callGeminiAPI env u).metrics.inputTokens ≠ .num 0 ∧
      (callGeminiAPI env u).metrics.outputTokens ≠ .num 0)
  ∧ (∀ (env : AnthropicEnv) (u : String) (data : TextResp) (t : String)
      (brief : Json) (spots : List Json) (imgs : List String),
      env.call = .ok data → data.ok = true → data.text = some t →
      tolerantDecode t = .ok brief → brief.isNull = false →
      jsGetArr brief "popularSpots" = .ok spots →
      mapSpotNames spots = .ok imgs →
      data.inTok = some 0 → data.outTok = some 0 →
      (callAnthropicAPI env u).metrics.inputTokens = .str "N/A" ∧
      (callAnthropicAPI env u).metrics.outputTokens = .str "N/A") := by
  refine ⟨fun fb => ⟨rfl, rfl⟩, anthropic_tokens_never_zero,
    openai_tokens_never_zero, gemini_tokens_never_zero, ?_⟩
  intro env u data t brief spots imgs h1 h2 h3 h4 h5 h6 h7 h8 h9
  rw [anthropic_run_eq env u data t brief spots imgs h1 h2 h3 h4 h5 h6 h7]
  rw [h8, h9]
  exact ⟨rfl, rfl⟩

/-- C10 witness: a concrete Anthropic run reporting zero tokens records
the fallback string. -/
theorem zero_token_count_conflated_witness :
    (callAnthropicAPI zeroUsageEnvA "x").metrics.inputTokens = .str "N/A" ∧
    (callAnthropicAPI zeroUsageEnvA "x").metrics.outputTokens = .str "N/A" :=
  zero_token_count_conflated.2.2.2.2 zeroUsageEnvA "x" respZero
    body0 brief0 [] [] rfl rfl rfl rfl rfl rfl rfl rfl rfl

/-- C7 witness: the spec's own example reply, and a concrete undecodable
reply producing a `Failure` with the parse-error message. -/
theorem tolerant_extraction_behavior_witness :
    extractSpan ("Sure! Here you go: " ++
        String.mk (lbrace :: ("\"destination\":\"Rome\"".data ++ [rbrace])) ++
        " Hope that helps!") =
      some (String.mk (lbrace :: ("\"destination\":\"Rome\"".data ++ [rbrace]))) ∧
    callAnthropicAPI proseEnvA "x" = anthropicFailure 5 jsonParseErrMsg :=
  ⟨tolerant_extraction_behavior.2.1 "Sure! Here you go: " " Hope that helps!"
      ("\"destination\":\"Rome\"".data) (by decide) (by decide),
   tolerant_extraction_behavior.2.2.2 proseEnvA "x" respProse
      "no json at all" jsonParseErrMsg rfl rfl rfl rfl⟩

end TripPlanner
